import Mathlib

/-!
Verification of the tradedata sync/normalization core.

Shallow embedding of the Python sources:
  src/tradedata/data/models.py        (entity dataclasses, db-row round trips)
  src/tradedata/data/validator.py     (per-entity validation)
  src/tradedata/sources/robinhood.py  (RobinhoodAdapter normalization/extraction)
  src/tradedata/application/robinhood_sync.py (sync orchestration loop)
  src/tradedata/data/repositories/*.py + storage.py (per-create transaction scopes)

Modelling conventions:
  - Python float business values are modelled as Rat (no claim here depends on
    IEEE rounding or NaN behaviour).
  - Python str is String; a dict field that may be absent is Option.
  - Fallible Python code (raise) is Except String.
  - datetime values that the code compares are modelled as microseconds since
    the epoch in UTC (the code normalizes every parsed datetime to UTC before
    comparing); a date string with no time component parses to midnight.
-/

namespace Tradedata

/-- Python `str.lower()` (ASCII case folding, which is all the code relies on). -/
def pyLower (s : String) : String := String.mk (s.toList.map Char.toLower)

/-- `needle` occurs as a contiguous run inside `hay`. -/
def listInfix : List Char → List Char → Bool
  | n, [] => n.isEmpty
  | n, c :: t => n.isPrefixOf (c :: t) || listInfix n t

/-- Python `needle in hay` for strings: substring containment. -/
def pyIn (needle hay : String) : Bool := listInfix needle.toList hay.toList

/-- Digits to a natural number, most significant first. -/
def digitsToNat (l : List Char) : Nat := l.foldl (fun a c => a * 10 + (c.toNat - 48)) 0

/-- All characters are ASCII digits. -/
def allDigits (l : List Char) : Bool := l.all Char.isDigit

/-- Gregorian leap year, as Python's datetime uses. -/
def isLeap (y : Nat) : Bool := y % 4 == 0 && (y % 100 != 0 || y % 400 == 0)

/-- Days in a month, as Python's datetime validates. -/
def daysInMonth (y m : Nat) : Nat :=
  if m == 2 then (if isLeap y then 29 else 28)
  else if m == 4 || m == 6 || m == 9 || m == 11 then 30
  else 31

/-- Tail of a UTC-offset suffix after the `±HH` part:
`""`, `":MM"`, or `":MM:SS"` with in-range values. -/
def offsetTailOk (cs : List Char) : Bool :=
  match cs with
  | [] => true
  | ':' :: m1 :: m2 :: rest =>
    allDigits [m1, m2] && decide (digitsToNat [m1, m2] ≤ 59) &&
    (match rest with
     | [] => true
     | ':' :: s1 :: s2 :: [] => allDigits [s1, s2] && decide (digitsToNat [s1, s2] ≤ 59)
     | _ => false)
  | _ => false

/-- Optional UTC-offset suffix `±HH[:MM[:SS]]` accepted by `datetime.fromisoformat`. -/
def offsetOk (cs : List Char) : Bool :=
  match cs with
  | [] => true
  | sign :: h1 :: h2 :: rest =>
    (sign == '+' || sign == '-') && allDigits [h1, h2] &&
    decide (digitsToNat [h1, h2] ≤ 23) && offsetTailOk rest
  | _ => false

/-- After `HH:MM:SS`, an optional fractional part then an optional offset. -/
def secondsTailOk (cs : List Char) : Bool :=
  match cs with
  | '.' :: rest =>
    let ds := rest.takeWhile Char.isDigit
    let rest2 := rest.dropWhile Char.isDigit
    !ds.isEmpty && offsetOk rest2
  | _ => offsetOk cs

/-- Time-of-day part `HH[:MM[:SS[.ffffff]]][offset]` accepted by
`datetime.fromisoformat`. -/
def timePartOk (cs : List Char) : Bool :=
  match cs with
  | h1 :: h2 :: rest =>
    allDigits [h1, h2] && decide (digitsToNat [h1, h2] ≤ 23) &&
    (match rest with
     | ':' :: m1 :: m2 :: rest2 =>
       allDigits [m1, m2] && decide (digitsToNat [m1, m2] ≤ 59) &&
       (match rest2 with
        | ':' :: s1 :: s2 :: rest3 =>
          allDigits [s1, s2] && decide (digitsToNat [s1, s2] ≤ 59) && secondsTailOk rest3
        | _ => offsetOk rest2)
     | _ => offsetOk rest)
  | _ => false

/-- Model of Python `datetime.fromisoformat` success on the hyphenated
`YYYY-MM-DD[<sep>HH:MM:SS[.ffffff]][±HH:MM]` shapes that this repository
feeds it (validator.py and robinhood.py only call it on such strings). -/
def fromisoformatOk (s : String) : Bool :=
  match s.toList with
  | y1 :: y2 :: y3 :: y4 :: '-' :: m1 :: m2 :: '-' :: d1 :: d2 :: rest =>
    allDigits [y1, y2, y3, y4, m1, m2, d1, d2] &&
    (let y := digitsToNat [y1, y2, y3, y4]
     let m := digitsToNat [m1, m2]
     let d := digitsToNat [d1, d2]
     decide (1 ≤ m) && decide (m ≤ 12) && decide (1 ≤ d) && decide (d ≤ daysInMonth y m)) &&
    (match rest with
     | [] => true
     | sep :: timeCs => (sep == 'T' || sep == ' ') && timePartOk timeCs)
  | _ => false

/-- Python `s.replace("Z", "+00:00")`: every `Z` becomes `+00:00`. -/
def replaceZ (s : String) : String :=
  String.mk (s.toList.foldr
    (fun c acc => if c == 'Z' then '+' :: '0' :: '0' :: ':' :: '0' :: '0' :: acc else c :: acc)
    [])

/-- Python `s.endswith("Z")`. -/
def endsWithZ (s : String) : Bool :=
  match s.toList.getLast? with
  | some c => c == 'Z'
  | none => false

/-- validator.py `_is_valid_iso_timestamp`: replace `Z` with `+00:00` when
the string ends with `Z`, then try `datetime.fromisoformat`. -/
def is_valid_iso_timestamp (timestamp : String) : Bool :=
  if endsWithZ timestamp then fromisoformatOk (replaceZ timestamp)
  else fromisoformatOk timestamp

/-- Python `value.split("-")` on characters. -/
def splitOnHyphen : List Char → List (List Char)
  | [] => [[]]
  | c :: t =>
    let r := splitOnHyphen t
    if c == '-' then [] :: r
    else
      match r with
      | h :: t2 => (c :: h) :: t2
      | [] => [[c]]

/-- validator.py `_is_uuid`: 36 chars, five hyphen-separated groups of
lengths 8-4-4-4-12. -/
def is_uuid (value : String) : Bool :=
  value.toList.length == 36 &&
  (splitOnHyphen value.toList).length == 5 &&
  ((splitOnHyphen value.toList).map List.length) == [8, 4, 4, 4, 12]

/-! ## Entity model (models.py) -/

/-- models.py `Transaction`. -/
structure Transaction where
  id : String
  source : String
  source_id : String
  type : String
  created_at : String
  account_id : Option String
  raw_data : String
deriving DecidableEq, Repr

/-- models.py `Transaction.to_db_tuple`. -/
def Transaction.to_db_tuple (t : Transaction) :
    String × String × String × String × String × Option String × String :=
  (t.id, t.source, t.source_id, t.type, t.created_at, t.account_id, t.raw_data)

/-- models.py `Transaction.from_db_row`. -/
def Transaction.from_db_row
    (row : String × String × String × String × String × Option String × String) :
    Transaction :=
  { id := row.1, source := row.2.1, source_id := row.2.2.1, type := row.2.2.2.1,
    created_at := row.2.2.2.2.1, account_id := row.2.2.2.2.2.1, raw_data := row.2.2.2.2.2.2 }

/-- models.py `OptionOrder`. -/
structure OptionOrder where
  id : String
  chain_symbol : String
  opening_strategy : Option String
  closing_strategy : Option String
  direction : Option String
  premium : Option Rat
  net_amount : Option Rat
deriving DecidableEq, Repr

/-- models.py `OptionOrder.to_db_tuple`. -/
def OptionOrder.to_db_tuple (o : OptionOrder) :
    String × String × Option String × Option String × Option String × Option Rat × Option Rat :=
  (o.id, o.chain_symbol, o.opening_strategy, o.closing_strategy, o.direction,
   o.premium, o.net_amount)

/-- models.py `OptionOrder.from_db_row`. -/
def OptionOrder.from_db_row
    (row : String × String × Option String × Option String × Option String ×
      Option Rat × Option Rat) : OptionOrder :=
  { id := row.1, chain_symbol := row.2.1, opening_strategy := row.2.2.1,
    closing_strategy := row.2.2.2.1, direction := row.2.2.2.2.1,
    premium := row.2.2.2.2.2.1, net_amount := row.2.2.2.2.2.2 }

/-- models.py `OptionLeg`. -/
structure OptionLeg where
  id : String
  order_id : String
  strike_price : Rat
  expiration_date : String
  option_type : String
  side : String
  position_effect : String
  ratio_quantity : Int
deriving DecidableEq, Repr

/-- models.py `OptionLeg.to_db_tuple`. -/
def OptionLeg.to_db_tuple (l : OptionLeg) :
    String × String × Rat × String × String × String × String × Int :=
  (l.id, l.order_id, l.strike_price, l.expiration_date, l.option_type, l.side,
   l.position_effect, l.ratio_quantity)

/-- models.py `OptionLeg.from_db_row`. -/
def OptionLeg.from_db_row
    (row : String × String × Rat × String × String × String × String × Int) : OptionLeg :=
  { id := row.1, order_id := row.2.1, strike_price := row.2.2.1,
    expiration_date := row.2.2.2.1, option_type := row.2.2.2.2.1,
    side := row.2.2.2.2.2.1, position_effect := row.2.2.2.2.2.2.1,
    ratio_quantity := row.2.2.2.2.2.2.2 }

/-- models.py `Execution`. -/
structure Execution where
  id : String
  order_id : String
  leg_id : Option String
  price : Rat
  quantity : Rat
  timestamp : String
  settlement_date : Option String
deriving DecidableEq, Repr

/-- models.py `Execution.to_db_tuple`. -/
def Execution.to_db_tuple (e : Execution) :
    String × String × Option String × Rat × Rat × String × Option String :=
  (e.id, e.order_id, e.leg_id, e.price, e.quantity, e.timestamp, e.settlement_date)

/-- models.py `Execution.from_db_row`. -/
def Execution.from_db_row
    (row : String × String × Option String × Rat × Rat × String × Option String) : Execution :=
  { id := row.1, order_id := row.2.1, leg_id := row.2.2.1, price := row.2.2.2.1,
    quantity := row.2.2.2.2.1, timestamp := row.2.2.2.2.2.1,
    settlement_date := row.2.2.2.2.2.2 }

/-- models.py `StockOrder`. -/
structure StockOrder where
  id : String
  symbol : String
  side : String
  quantity : Rat
  price : Option Rat
  average_price : Option Rat
deriving DecidableEq, Repr

/-- models.py `StockOrder.to_db_tuple`. -/
def StockOrder.to_db_tuple (s : StockOrder) :
    String × String × String × Rat × Option Rat × Option Rat :=
  (s.id, s.symbol, s.side, s.quantity, s.price, s.average_price)

/-- models.py `StockOrder.from_db_row`. -/
def StockOrder.from_db_row
    (row : String × String × String × Rat × Option Rat × Option Rat) : StockOrder :=
  { id := row.1, symbol := row.2.1, side := row.2.2.1, quantity := row.2.2.2.1,
    price := row.2.2.2.2.1, average_price := row.2.2.2.2.2 }

/-- models.py `Position`. -/
structure Position where
  id : String
  source : String
  account_id : Option String
  symbol : String
  quantity : Rat
  cost_basis : Option Rat
  current_price : Option Rat
  unrealized_pnl : Option Rat
  last_updated : String
deriving DecidableEq, Repr

/-- models.py `Position.to_db_tuple`. -/
def Position.to_db_tuple (p : Position) :
    String × String × Option String × String × Rat × Option Rat × Option Rat ×
      Option Rat × String :=
  (p.id, p.source, p.account_id, p.symbol, p.quantity, p.cost_basis, p.current_price,
   p.unrealized_pnl, p.last_updated)

/-- models.py `Position.from_db_row`. -/
def Position.from_db_row
    (row : String × String × Option String × String × Rat × Option Rat × Option Rat ×
      Option Rat × String) : Position :=
  { id := row.1, source := row.2.1, account_id := row.2.2.1, symbol := row.2.2.2.1,
    quantity := row.2.2.2.2.1, cost_basis := row.2.2.2.2.2.1,
    current_price := row.2.2.2.2.2.2.1, unrealized_pnl := row.2.2.2.2.2.2.2.1,
    last_updated := row.2.2.2.2.2.2.2.2 }

/-- models.py `TransactionLink`. -/
structure TransactionLink where
  id : String
  opening_transaction_id : String
  closing_transaction_id : String
  link_type : Option String
  created_at : String
deriving DecidableEq, Repr

/-- models.py `TransactionLink.to_db_tuple`. -/
def TransactionLink.to_db_tuple (l : TransactionLink) :
    String × String × String × Option String × String :=
  (l.id, l.opening_transaction_id, l.closing_transaction_id, l.link_type, l.created_at)

/-- models.py `TransactionLink.from_db_row`. -/
def TransactionLink.from_db_row
    (row : String × String × String × Option String × String) : TransactionLink :=
  { id := row.1, opening_transaction_id := row.2.1, closing_transaction_id := row.2.2.1,
    link_type := row.2.2.2.1, created_at := row.2.2.2.2 }

/-- Decidable equality of `Except` results, for evaluating validators. -/
instance {ε α : Type} [DecidableEq ε] [DecidableEq α] : DecidableEq (Except ε α) := fun a b =>
  match a, b with
  | Except.ok x, Except.ok y =>
    if h : x = y then Decidable.isTrue (by rw [h])
    else Decidable.isFalse (by intro he; cases he; exact h rfl)
  | Except.error x, Except.error y =>
    if h : x = y then Decidable.isTrue (by rw [h])
    else Decidable.isFalse (by intro he; cases he; exact h rfl)
  | Except.ok _, Except.error _ => Decidable.isFalse (by intro he; cases he)
  | Except.error _, Except.ok _ => Decidable.isFalse (by intro he; cases he)

/-! ## Validator (validator.py)

Python `isinstance` checks can never fire in this typed embedding (the
adapter layer only ever passes values of the declared types), so only the
emptiness / format / sign / enumeration checks remain. Error strings follow
the source f-strings (quote characters dropped from the enumeration
messages). -/

/-- validator.py `validate_transaction`. -/
def validate_transaction (t : Transaction) : Except String Unit := do
  if t.id == "" then throw "Transaction.id: must be non-empty string"
  if !is_uuid t.id then throw ("Transaction.id: invalid UUID format: " ++ t.id)
  if t.source == "" then throw "Transaction.source: must be non-empty string"
  if t.source_id == "" then throw "Transaction.source_id: must be non-empty string"
  if t.type == "" then throw "Transaction.type: must be non-empty string"
  if t.created_at == "" then throw "Transaction.created_at: must be non-empty string"
  if !is_valid_iso_timestamp t.created_at then
    throw ("Transaction.created_at: invalid ISO timestamp: " ++ t.created_at)
  return ()

/-- validator.py `validate_option_order`. -/
def validate_option_order (o : OptionOrder) : Except String Unit := do
  if o.id == "" then throw "OptionOrder.id: must be non-empty string (FK to transactions)"
  if !is_uuid o.id then throw ("OptionOrder.id: invalid UUID format: " ++ o.id)
  if o.chain_symbol == "" then throw "OptionOrder.chain_symbol: must be non-empty string"
  return ()

/-- validator.py `validate_option_leg`. -/
def validate_option_leg (l : OptionLeg) : Except String Unit := do
  if l.id == "" then throw "OptionLeg.id: must be non-empty string"
  if !is_uuid l.id then throw ("OptionLeg.id: invalid UUID format: " ++ l.id)
  if l.order_id == "" then
    throw "OptionLeg.order_id: must be non-empty string (FK to option_orders)"
  if !is_uuid l.order_id then throw ("OptionLeg.order_id: invalid UUID format: " ++ l.order_id)
  if l.strike_price < 0 then
    throw ("OptionLeg.strike_price: must be positive, got " ++ toString l.strike_price)
  if l.expiration_date == "" then throw "OptionLeg.expiration_date: must be non-empty string"
  if !is_valid_iso_timestamp l.expiration_date then
    throw ("OptionLeg.expiration_date: invalid ISO date: " ++ l.expiration_date)
  if l.option_type == "" then throw "OptionLeg.option_type: must be non-empty string"
  if !(["call", "put"].contains (pyLower l.option_type)) then
    throw ("OptionLeg.option_type: must be call or put, got " ++ l.option_type)
  if l.side == "" then throw "OptionLeg.side: must be non-empty string"
  if !(["buy", "sell"].contains (pyLower l.side)) then
    throw ("OptionLeg.side: must be buy or sell, got " ++ l.side)
  if l.position_effect == "" then throw "OptionLeg.position_effect: must be non-empty string"
  if !(["open", "close"].contains (pyLower l.position_effect)) then
    throw ("OptionLeg.position_effect: must be open or close, got " ++ l.position_effect)
  if l.ratio_quantity ≤ 0 then
    throw ("OptionLeg.ratio_quantity: must be positive, got " ++ toString l.ratio_quantity)
  return ()

/-- validator.py `validate_execution`. -/
def validate_execution (e : Execution) : Except String Unit := do
  if e.id == "" then throw "Execution.id: must be non-empty string"
  if !is_uuid e.id then throw ("Execution.id: invalid UUID format: " ++ e.id)
  if e.order_id == "" then throw "Execution.order_id: must be non-empty string (FK to transactions)"
  if !is_uuid e.order_id then throw ("Execution.order_id: invalid UUID format: " ++ e.order_id)
  match e.leg_id with
  | some lid =>
    if !is_uuid lid then throw ("Execution.leg_id: invalid UUID format: " ++ lid)
  | none => pure ()
  if e.price < 0 then throw ("Execution.price: must be non-negative, got " ++ toString e.price)
  if e.quantity ≤ 0 then throw ("Execution.quantity: must be positive, got " ++ toString e.quantity)
  if e.timestamp == "" then throw "Execution.timestamp: must be non-empty string"
  if !is_valid_iso_timestamp e.timestamp then
    throw ("Execution.timestamp: invalid ISO timestamp: " ++ e.timestamp)
  match e.settlement_date with
  | some sd =>
    if !is_valid_iso_timestamp sd then throw ("Execution.settlement_date: invalid ISO date: " ++ sd)
  | none => pure ()
  return ()

/-- validator.py `validate_stock_order`. -/
def validate_stock_order (o : StockOrder) : Except String Unit := do
  if o.id == "" then throw "StockOrder.id: must be non-empty string (FK to transactions)"
  if !is_uuid o.id then throw ("StockOrder.id: invalid UUID format: " ++ o.id)
  if o.symbol == "" then throw "StockOrder.symbol: must be non-empty string"
  if o.side == "" then throw "StockOrder.side: must be non-empty string"
  if !(["buy", "sell"].contains (pyLower o.side)) then
    throw ("StockOrder.side: must be buy or sell, got " ++ o.side)
  if o.quantity ≤ 0 then
    throw ("StockOrder.quantity: must be positive, got " ++ toString o.quantity)
  match o.price with
  | some p =>
    if p < 0 then throw ("StockOrder.price: must be non-negative, got " ++ toString p)
  | none => pure ()
  match o.average_price with
  | some p =>
    if p < 0 then throw ("StockOrder.average_price: must be non-negative, got " ++ toString p)
  | none => pure ()
  return ()

/-- validator.py `validate_position`. -/
def validate_position (p : Position) : Except String Unit := do
  if p.id == "" then throw "Position.id: must be non-empty string"
  if !is_uuid p.id then throw ("Position.id: invalid UUID format: " ++ p.id)
  if p.source == "" then throw "Position.source: must be non-empty string"
  if p.symbol == "" then throw "Position.symbol: must be non-empty string"
  if p.last_updated == "" then throw "Position.last_updated: must be non-empty string"
  if !is_valid_iso_timestamp p.last_updated then
    throw ("Position.last_updated: invalid ISO timestamp: " ++ p.last_updated)
  return ()

/-- validator.py `validate_transaction_link`. -/
def validate_transaction_link (l : TransactionLink) : Except String Unit := do
  if l.id == "" then throw "TransactionLink.id: must be non-empty string"
  if !is_uuid l.id then throw ("TransactionLink.id: invalid UUID format: " ++ l.id)
  if l.opening_transaction_id == "" then
    throw "TransactionLink.opening_transaction_id: must be non-empty string (FK to transactions)"
  if !is_uuid l.opening_transaction_id then
    throw ("TransactionLink.opening_transaction_id: invalid UUID format: " ++
      l.opening_transaction_id)
  if l.closing_transaction_id == "" then
    throw "TransactionLink.closing_transaction_id: must be non-empty string (FK to transactions)"
  if !is_uuid l.closing_transaction_id then
    throw ("TransactionLink.closing_transaction_id: invalid UUID format: " ++
      l.closing_transaction_id)
  if l.opening_transaction_id == l.closing_transaction_id then
    throw "TransactionLink: opening_transaction_id and closing_transaction_id must be different"
  if l.created_at == "" then throw "TransactionLink.created_at: must be non-empty string"
  if !is_valid_iso_timestamp l.created_at then
    throw ("TransactionLink.created_at: invalid ISO timestamp: " ++ l.created_at)
  return ()

/-! ## Robinhood adapter raw payloads (robinhood.py)

A raw broker record is a Python dict; this embedding gives it the fields the
adapter reads. An absent key (or an unparseable numeric string fed to
`_safe_float`, which returns None) is `none`. -/

/-- One entry of a raw option order's "legs" list. -/
structure RawLeg where
  strike_price : Option Rat := none
  expiration_date : Option String := none
  expires_at : Option String := none
  expiry : Option String := none
  expiration : Option String := none
  option_type : Option String := none
  side : Option String := none
  position_effect : Option String := none
  ratio_quantity : Option Int := none
deriving DecidableEq, Repr

/-- One entry of a raw order's "executions" list. -/
structure RawExec where
  price : Option Rat := none
  quantity : Option Rat := none
  settlement_date : Option String := none
  created_at : Option String := none
  updated_at : Option String := none
  last_transaction_at : Option String := none
  execution_date : Option String := none
  timestamp : Option String := none
deriving DecidableEq, Repr

/-- A raw transaction dict from the Robinhood API. -/
structure RawTx where
  id : Option String := none
  order_id : Option String := none
  account : Option String := none
  legs : Option (List RawLeg) := none
  instrument : Option String := none
  symbol : Option String := none
  type : Option String := none
  created_at : Option String := none
  updated_at : Option String := none
  last_transaction_at : Option String := none
  execution_date : Option String := none
  timestamp : Option String := none
  chain_symbol : Option String := none
  opening_strategy : Option String := none
  closing_strategy : Option String := none
  direction : Option String := none
  premium : Option Rat := none
  net_amount : Option Rat := none
  executions : Option (List RawExec) := none
  side : Option String := none
  quantity : Option Rat := none
  price : Option Rat := none
  average_price : Option Rat := none
deriving DecidableEq, Repr

/-- A raw position dict from the Robinhood API. -/
structure RawPos where
  symbol : Option String := none
  chain_symbol : Option String := none
  instrument : Option String := none
  quantity : Option Rat := none
  cost_basis : Option Rat := none
  current_price : Option Rat := none
  unrealized_pnl : Option Rat := none
  created_at : Option String := none
  updated_at : Option String := none
  last_transaction_at : Option String := none
  execution_date : Option String := none
  timestamp : Option String := none
deriving DecidableEq, Repr

/-- First truthy (present, non-empty) string among candidate fields. -/
def firstTruthy : List (Option String) → Option String
  | [] => none
  | some s :: rest => if s != "" then some s else firstTruthy rest
  | none :: rest => firstTruthy rest

/-- robinhood.py `_extract_timestamp` on a raw transaction: first truthy
candidate among the ordered timestamp fields, else the current UTC time
(passed in as `now`, the `datetime.utcnow().isoformat() + "Z"` string). -/
def extract_timestamp_tx (now : String) (r : RawTx) : String :=
  (firstTruthy
    [r.created_at, r.updated_at, r.last_transaction_at, r.execution_date, r.timestamp]).getD now

/-- robinhood.py `_extract_timestamp` applied to a raw execution entry. -/
def extract_timestamp_exec (now : String) (e : RawExec) : String :=
  (firstTruthy
    [e.created_at, e.updated_at, e.last_transaction_at, e.execution_date, e.timestamp]).getD now

/-- robinhood.py `_extract_timestamp` applied to a raw position. -/
def extract_timestamp_pos (now : String) (p : RawPos) : String :=
  (firstTruthy
    [p.created_at, p.updated_at, p.last_transaction_at, p.execution_date, p.timestamp]).getD now

/-- robinhood.py `_determine_transaction_type`. -/
def determine_transaction_type (r : RawTx) : String :=
  if r.legs.isSome || pyIn "option" (r.instrument.getD "") then "option"
  else if (r.symbol.getD "") != "" && !pyIn "option" (r.instrument.getD "") then "stock"
  else if pyIn "crypto" (pyLower (r.type.getD "")) then "crypto"
  else if pyIn "dividend" (pyLower (r.type.getD "")) then "dividend"
  else "unknown"

/-- The type-determination rule exactly as the spec words it (for claim C6):
a "legs" field or an "option" marker in the instrument reference means
option; otherwise a plain symbol means stock; otherwise a type string
containing "crypto" or "dividend" gives that type; otherwise "unknown". -/
def specTransactionType (r : RawTx) : String :=
  if r.legs.isSome || pyIn "option" (r.instrument.getD "") then "option"
  else if (r.symbol.getD "") != "" then "stock"
  else if pyIn "crypto" (pyLower (r.type.getD "")) then "crypto"
  else if pyIn "dividend" (pyLower (r.type.getD "")) then "dividend"
  else "unknown"

/-- robinhood.py `normalize_transaction`. `mkId` stands for the fresh
`str(uuid.uuid4())`, `now` for the current UTC time string, and `dumps` for
`json.dumps` of the original payload. -/
def normalize_transaction (dumps : RawTx → String) (mkId : String) (now : String)
    (r : RawTx) : Transaction :=
  let transaction_type := determine_transaction_type r
  let source_id :=
    if (r.id.getD "") != "" then r.id.getD "" else r.order_id.getD ""
  let created_at := extract_timestamp_tx now r
  let account_id := r.account.getD ""
  { id := mkId, source := "robinhood", source_id := source_id, type := transaction_type,
    created_at := created_at,
    account_id := if account_id != "" then some account_id else none,
    raw_data := dumps r }

/-- robinhood.py `extract_stock_order`. Returns `none` for non-stock records
and also when the symbol is missing or empty (the code has no raise). -/
def extract_stock_order (r : RawTx) (transaction_id : String) : Option StockOrder :=
  if determine_transaction_type r != "stock" then none
  else
    let symbol := r.symbol.getD ""
    if symbol == "" then none
    else
      some { id := transaction_id, symbol := symbol, side := pyLower (r.side.getD ""),
             quantity := r.quantity.getD 0,
             price := some (r.price.getD 0),
             average_price := some (r.average_price.getD 0) }

/-- robinhood.py `extract_executions`. `mkIds i` stands for the fresh
`str(uuid.uuid4())` drawn for the i-th execution. -/
def extract_executions (now : String) (mkIds : Nat → String) (r : RawTx)
    (transaction_id : String) (leg_ids : Option (List String)) : List Execution :=
  (r.executions.getD []).enum.map (fun p =>
    let idx := p.1
    let raw_exec := p.2
    let lid : Option String :=
      match leg_ids with
      | none => none
      | some l => if !l.isEmpty && decide (idx < l.length) then l.get? idx else none
    { id := mkIds idx, order_id := transaction_id, leg_id := lid,
      price := raw_exec.price.getD 0, quantity := raw_exec.quantity.getD 0,
      timestamp := extract_timestamp_exec now raw_exec,
      settlement_date := raw_exec.settlement_date })

/-- The keyword arguments supplied to a `Position(...)` constructor call:
`none` means the keyword was not passed. -/
structure PositionKwargs where
  id : Option String := none
  source : Option String := none
  account_id : Option (Option String) := none
  symbol : Option String := none
  quantity : Option Rat := none
  cost_basis : Option (Option Rat) := none
  current_price : Option (Option Rat) := none
  unrealized_pnl : Option (Option Rat) := none
  last_updated : Option String := none

/-- The dataclass-generated constructor of models.py `Position`: all nine
fields are required arguments and a missing keyword raises a TypeError. -/
def Position.init_kwargs (k : PositionKwargs) : Except String Position :=
  match k.account_id with
  | none =>
    Except.error "TypeError: Position.__init__() missing 1 required positional argument: account_id"
  | some a =>
    match k.id, k.source, k.symbol, k.quantity, k.cost_basis, k.current_price,
        k.unrealized_pnl, k.last_updated with
    | some i, some s, some sym, some q, some cb, some cp, some pnl, some lu =>
      Except.ok { id := i, source := s, account_id := a, symbol := sym, quantity := q,
                  cost_basis := cb, current_price := cp, unrealized_pnl := pnl,
                  last_updated := lu }
    | _, _, _, _, _, _, _, _ =>
      Except.error "TypeError: Position.__init__() missing required arguments"

/-- robinhood.py `normalize_position` (lines 607-639): resolves the symbol
from "symbol" or "chain_symbol", else via `self.rh.get_symbol_by_url` on the
instrument URL, then calls the `Position(...)` constructor. The source call
passes id, source, symbol, quantity, cost_basis, current_price,
unrealized_pnl and last_updated, and does not pass account_id. -/
def normalize_position (get_symbol_by_url : String → Option String) (mkId : String)
    (now : String) (r : RawPos) : Except String Position :=
  let symbol0 :=
    if (r.symbol.getD "") != "" then r.symbol.getD ""
    else if (r.chain_symbol.getD "") != "" then r.chain_symbol.getD ""
    else ""
  let symbol :=
    if symbol0 == "" then
      match r.instrument with
      | some url =>
        if url != "" then
          match get_symbol_by_url url with
          | some resolved => if resolved != "" then resolved else symbol0
          | none => symbol0
        else symbol0
      | none => symbol0
    else symbol0
  Position.init_kwargs
    { id := some mkId, source := some "robinhood", symbol := some symbol,
      quantity := some (r.quantity.getD 0),
      cost_basis := some (some (r.cost_basis.getD 0)),
      current_price := some (some (r.current_price.getD 0)),
      unrealized_pnl := some (some (r.unrealized_pnl.getD 0)),
      last_updated := some (extract_timestamp_pos now r) }

/-! ## Date-range filtering (robinhood.py `_filter_by_date`, `extract_transactions`)

Timestamps compared by the filter are modelled as microseconds since the
epoch in UTC: the code parses every record timestamp and every bound with
`datetime.fromisoformat` and normalizes naive values to UTC before
comparing, and a date string with no time component parses to midnight.
`resolved` is the record's `_extract_timestamp` + parse pipeline. -/

/-- Microseconds per day. -/
def usPerDay : Nat := 86400000000

/-- robinhood.py `_filter_by_date`: drop records before the start bound or
after the end bound; an end bound whose time-of-day is midnight (which is
what a date-only string parses to) is widened to 23:59:59.999999. -/
def filter_by_date {α : Type} (resolved : α → Nat) (transactions : List α)
    (start_date end_date : Option Nat) : List α :=
  transactions.filter (fun tx =>
    (match start_date with
     | none => true
     | some s => !decide (resolved tx < s)) &&
    (match end_date with
     | none => true
     | some e =>
       let e2 := if e % usPerDay == 0 then e + (usPerDay - 1) else e
       !decide (resolved tx > e2)))

/-- robinhood.py `extract_transactions`: stock orders then option orders,
date-filtered only when at least one bound is given. -/
def extract_transactions {α : Type} (resolved : α → Nat)
    (stock_orders option_orders : List α) (start_date end_date : Option Nat) : List α :=
  let transactions := stock_orders ++ option_orders
  if start_date.isSome || end_date.isSome then
    filter_by_date resolved transactions start_date end_date
  else transactions

/-- Claim C7's bound predicate, as the spec words it: the resolved timestamp
lies within the given bounds inclusively, an end date carrying no time
component first extended through 23:59:59.999999 of that day. -/
def inClaimBounds (t : Nat) (start_date end_date : Option Nat) : Bool :=
  (match start_date with
   | none => true
   | some s => decide (s ≤ t)) &&
  (match end_date with
   | none => true
   | some e =>
     let e2 := if e % usPerDay == 0 then e + (usPerDay - 1) else e
     decide (t ≤ e2))

/-! ## Storage and repositories (storage.py, repositories/*.py)

Storage state is the five tables the sync loop writes. Every repository
`create` call in the sync loop passes `conn=None`, so each one opens its own
`storage.transaction()` scope: it commits its single INSERT on success, and
on failure rolls back only its own uncommitted statements, leaving the
database exactly as it was before that call. A create failure (constraint
violation, connection error, ...) is modelled by an injectable failure
predicate per table, mirroring how the repository tests monkeypatch
`create`. -/

/-- The five tables the transaction-sync loop writes. -/
structure DB where
  transactions : List Transaction
  option_orders : List OptionOrder
  option_legs : List OptionLeg
  executions : List Execution
  stock_orders : List StockOrder
deriving DecidableEq, Repr

/-- An empty database. -/
def DB.empty : DB :=
  { transactions := [], option_orders := [], option_legs := [], executions := [],
    stock_orders := [] }

/-- transaction.py `TransactionRepository.exists_by_source_id`. -/
def exists_by_source_id (db : DB) (source source_id : String) : Bool :=
  db.transactions.any (fun t => t.source == source && t.source_id == source_id)

/-- Which `create` calls fail with a storage error (all succeed by default). -/
structure RepoFailures where
  txFail : Transaction → Bool := fun _ => false
  optionOrderFail : OptionOrder → Bool := fun _ => false
  legFail : OptionLeg → Bool := fun _ => false
  execFail : Execution → Bool := fun _ => false
  stockFail : StockOrder → Bool := fun _ => false

/-- `TransactionRepository.create` with `conn=None`: its own transaction
scope commits the row, or fails leaving the database untouched. -/
def tx_create (R : RepoFailures) (db : DB) (t : Transaction) : Except String DB :=
  if R.txFail t then Except.error "storage error: transactions insert failed"
  else Except.ok { db with transactions := db.transactions ++ [t] }

/-- `OptionOrderRepository.create` with `conn=None`. -/
def option_order_create (R : RepoFailures) (db : DB) (o : OptionOrder) : Except String DB :=
  if R.optionOrderFail o then Except.error "storage error: option_orders insert failed"
  else Except.ok { db with option_orders := db.option_orders ++ [o] }

/-- `OptionLegRepository.create` with `conn=None`. -/
def option_leg_create (R : RepoFailures) (db : DB) (l : OptionLeg) : Except String DB :=
  if R.legFail l then Except.error "storage error: option_legs insert failed"
  else Except.ok { db with option_legs := db.option_legs ++ [l] }

/-- `ExecutionRepository.create` with `conn=None`. -/
def execution_create (R : RepoFailures) (db : DB) (e : Execution) : Except String DB :=
  if R.execFail e then Except.error "storage error: executions insert failed"
  else Except.ok { db with executions := db.executions ++ [e] }

/-- `StockOrderRepository.create` with `conn=None`. -/
def stock_order_create (R : RepoFailures) (db : DB) (s : StockOrder) : Except String DB :=
  if R.stockFail s then Except.error "storage error: stock_orders insert failed"
  else Except.ok { db with stock_orders := db.stock_orders ++ [s] }

/-! ## Sync orchestration (robinhood_sync.py `sync_transactions`, lines 93-124)

The orchestrator is generic over the adapter, which robinhood_sync.py
receives injected or builds via the factory; the adapter's extraction
surface is the capability record below (the uuid4 identities are drawn
inside the adapter's methods, so here they are part of the adapter
functions). Credentials, login and `extract_transactions` happen before the
loop; the loop input is the raw-record list they produced. -/

/-- The adapter capability used by the sync loop. -/
structure Adapter (Raw : Type) where
  normalize_transaction : Raw → Transaction
  extract_option_order : Raw → String → Option OptionOrder
  extract_option_legs : Raw → String → List OptionLeg
  extract_executions : Raw → String → Option (List String) → List Execution
  extract_stock_order : Raw → String → Option StockOrder

/-- Orchestrator state after some prefix of the raw records: committed
database, the `stored_transactions` result list, and the exception that
aborted the run, if any (once raised, nothing further executes). -/
structure SyncState where
  db : DB
  stored : List Transaction
  error : Option String
deriving DecidableEq, Repr

/-- Lines 109-111 of robinhood_sync.py: validate and insert each leg in
order; the first failure aborts, keeping the legs already committed. -/
def insertLegs (R : RepoFailures) : DB → List OptionLeg → DB × Option String
  | db, [] => (db, none)
  | db, leg :: rest =>
    match validate_option_leg leg with
    | Except.error m => (db, some m)
    | Except.ok _ =>
      match option_leg_create R db leg with
      | Except.error m => (db, some m)
      | Except.ok db2 => insertLegs R db2 rest

/-- Lines 115-117 of robinhood_sync.py: validate and insert each execution. -/
def insertExecutions (R : RepoFailures) : DB → List Execution → DB × Option String
  | db, [] => (db, none)
  | db, e :: rest =>
    match validate_execution e with
    | Except.error m => (db, some m)
    | Except.ok _ =>
      match execution_create R db e with
      | Except.error m => (db, some m)
      | Except.ok db2 => insertExecutions R db2 rest

/-- Lines 104-117: the option branch of the per-record body, entered after
the Transaction row was created (state `s1`). -/
def processOption {Raw : Type} (A : Adapter Raw) (R : RepoFailures) (s1 : SyncState)
    (raw : Raw) (t : Transaction) (oo : OptionOrder) : SyncState :=
  match validate_option_order oo with
  | Except.error m => { s1 with error := some m }
  | Except.ok _ =>
    match option_order_create R s1.db oo with
    | Except.error m => { s1 with error := some m }
    | Except.ok db2 =>
      let legs := A.extract_option_legs raw oo.id
      match insertLegs R db2 legs with
      | (db3, some m) => { s1 with db := db3, error := some m }
      | (db3, none) =>
        let leg_ids := if legs.isEmpty then none else some (legs.map (fun l => l.id))
        let execs := A.extract_executions raw t.id leg_ids
        match insertExecutions R db3 execs with
        | (db4, some m) => { s1 with db := db4, error := some m }
        | (db4, none) => { s1 with db := db4 }

/-- Lines 103-122: after the Transaction row is committed (state `s1`), the
option branch or else the stock branch of the per-record body. -/
def processChildren {Raw : Type} (A : Adapter Raw) (R : RepoFailures) (s1 : SyncState)
    (raw : Raw) (t : Transaction) : SyncState :=
  match A.extract_option_order raw t.id with
  | some oo => processOption A R s1 raw t oo
  | none =>
    match A.extract_stock_order raw t.id with
    | some so =>
      match validate_stock_order so with
      | Except.error m => { s1 with error := some m }
      | Except.ok _ =>
        match stock_order_create R s1.db so with
        | Except.error m => { s1 with error := some m }
        | Except.ok db2 => { s1 with db := db2 }
    | none => s1

/-- Lines 96-122: the per-record body, assuming no earlier exception:
normalize, validate, dedup-check on `(source, source_id)`, create the
Transaction row, then the option or stock child writes. -/
def processRecord1 {Raw : Type} (A : Adapter Raw) (R : RepoFailures) (s : SyncState)
    (raw : Raw) : SyncState :=
  let t := A.normalize_transaction raw
  match validate_transaction t with
  | Except.error m => { s with error := some m }
  | Except.ok _ =>
    if exists_by_source_id s.db t.source t.source_id then s
    else
      match tx_create R s.db t with
      | Except.error m => { s with error := some m }
      | Except.ok db1 =>
        processChildren A R { db := db1, stored := s.stored ++ [t], error := none } raw t

/-- One loop iteration: an exception raised earlier skips everything. -/
def processRecord {Raw : Type} (A : Adapter Raw) (R : RepoFailures) (s : SyncState)
    (raw : Raw) : SyncState :=
  match s.error with
  | some _ => s
  | none => processRecord1 A R s raw

/-- robinhood_sync.py `sync_transactions`, the storage loop over the raw
records the adapter extracted, starting from database `db0`. -/
def sync_transactions {Raw : Type} (A : Adapter Raw) (R : RepoFailures)
    (raws : List Raw) (db0 : DB) : SyncState :=
  raws.foldl (processRecord A R) { db := db0, stored := [], error := none }

/-! ## A concrete adapter, mirroring the deterministic FakeAdapter of
tests/tradedata/application/test_robinhood_sync.py (fixed uuid identities in
place of `uuid.uuid4()`). -/

/-- The two raw records the fake adapter returns. -/
inductive FakeRaw where
  | rawOption
  | rawStock
deriving DecidableEq, Repr

/-- Fixed uuid for the option Transaction. -/
def uuidT1 : String := "00000000-0000-4000-8000-0000000000a1"

/-- Fixed uuid for the stock Transaction. -/
def uuidT2 : String := "00000000-0000-4000-8000-0000000000a2"

/-- Fixed uuid for the first option leg. -/
def uuidL1 : String := "00000000-0000-4000-8000-0000000000b1"

/-- Fixed uuid for the second option leg. -/
def uuidL2 : String := "00000000-0000-4000-8000-0000000000b2"

/-- Fixed uuid for the execution. -/
def uuidE1 : String := "00000000-0000-4000-8000-0000000000c1"

/-- Normalized form of the raw option record. -/
def optionTx : Transaction :=
  { id := uuidT1, source := "robinhood", source_id := "opt-123", type := "option",
    created_at := "2025-01-01T00:00:00Z", account_id := none, raw_data := "raw-option" }

/-- Normalized form of the raw stock record. -/
def stockTx : Transaction :=
  { id := uuidT2, source := "robinhood", source_id := "stk-123", type := "stock",
    created_at := "2025-01-02T00:00:00Z", account_id := none, raw_data := "raw-stock" }

/-- The option order extracted for the option record. -/
def fakeOptionOrder (tid : String) : OptionOrder :=
  { id := tid, chain_symbol := "AAPL", opening_strategy := some "vertical_call_spread",
    closing_strategy := none, direction := some "debit", premium := some 3,
    net_amount := some (-250) }

/-- First leg of the option order. -/
def fakeLeg1 (oid : String) : OptionLeg :=
  { id := uuidL1, order_id := oid, strike_price := 150,
    expiration_date := "2025-06-01T00:00:00Z", option_type := "call", side := "buy",
    position_effect := "open", ratio_quantity := 1 }

/-- Second leg of the option order. -/
def fakeLeg2 (oid : String) : OptionLeg :=
  { id := uuidL2, order_id := oid, strike_price := 155,
    expiration_date := "2025-06-01T00:00:00Z", option_type := "call", side := "sell",
    position_effect := "open", ratio_quantity := 1 }

/-- The single execution of the option record, paired to the first leg id
when leg ids are supplied (as the fake adapter does). -/
def fakeExec (tid : String) (lid : Option String) : Execution :=
  { id := uuidE1, order_id := tid, leg_id := lid, price := 3, quantity := 10,
    timestamp := "2025-01-01T10:00:00Z", settlement_date := none }

/-- The stock order extracted for the stock record. -/
def fakeStockOrder (tid : String) : StockOrder :=
  { id := tid, symbol := "MSFT", side := "buy", quantity := 5, price := some 100,
    average_price := some 100 }

/-- The deterministic fake adapter of the sync tests: one option record
(AAPL, two legs, one execution) and one stock record (MSFT). -/
def fakeAdapter : Adapter FakeRaw :=
  { normalize_transaction := fun r =>
      match r with
      | FakeRaw.rawOption => optionTx
      | FakeRaw.rawStock => stockTx
    extract_option_order := fun r tid =>
      match r with
      | FakeRaw.rawOption => some (fakeOptionOrder tid)
      | FakeRaw.rawStock => none
    extract_option_legs := fun r oid =>
      match r with
      | FakeRaw.rawOption => [fakeLeg1 oid, fakeLeg2 oid]
      | FakeRaw.rawStock => []
    extract_executions := fun r tid leg_ids =>
      match r with
      | FakeRaw.rawOption =>
        [fakeExec tid (match leg_ids with
          | some (l :: _) => some l
          | _ => none)]
      | FakeRaw.rawStock => []
    extract_stock_order := fun r tid =>
      match r with
      | FakeRaw.rawStock => some (fakeStockOrder tid)
      | FakeRaw.rawOption => none }

/-- No storage failures. -/
def noFailures : RepoFailures := {}

/-- Every option-leg insert fails (the monkeypatch of
`test_sync_transactions_is_atomic`). -/
def legFailRepo : RepoFailures := { legFail := fun _ => true }

/-! ## Concrete inputs for the validator and extraction claims. -/

/-- An otherwise-valid option leg with `ratio_quantity = 0`. -/
def legRatioZero : OptionLeg := { fakeLeg1 uuidT1 with ratio_quantity := 0 }

/-- A link whose opening and closing transaction ids are the same valid uuid. -/
def linkEqualIds : TransactionLink :=
  { id := uuidE1, opening_transaction_id := uuidT1, closing_transaction_id := uuidT1,
    link_type := none, created_at := "2025-01-01T00:00:00Z" }

/-- An otherwise-valid transaction with `created_at = "not-a-timestamp"`. -/
def txBadTimestamp : Transaction := { optionTx with created_at := "not-a-timestamp" }

/-- The raw record of the repo's own
`test_extract_stock_order_missing_symbol_raises`: a stock-shaped dict with
no "symbol" key. -/
def rawStockNoSymbol : RawTx :=
  { id := some "rh-stock-123", side := some "buy", quantity := some 10,
    price := some 150, average_price := some 150 }

/-- A raw record with two execution entries. -/
def rawTwoExecs : RawTx := { executions := some [{}, {}] }

/-- Two executions extracted against a single-element leg-id list. -/
def execsPaired : List Execution :=
  extract_executions "now" (fun _ => uuidE1) rawTwoExecs uuidT1 (some [uuidL1])

/-- The raw position of the repo's own `test_normalize_position`. -/
def rawPosAAPL : RawPos :=
  { symbol := some "AAPL", quantity := some 10, cost_basis := some 150,
    current_price := some 155, unrealized_pnl := some 50,
    updated_at := some "2025-01-15T10:00:00Z" }

/-! ## Theorems -/

/-- C8: for every entity of each of the seven entity types, the database-row
round trip is the identity: `from_db_row (to_db_tuple e) = e`, including
when nullable fields are none. -/
theorem c8_db_row_round_trip_identity :
    (∀ t : Transaction, Transaction.from_db_row t.to_db_tuple = t) ∧
    (∀ o : StockOrder, StockOrder.from_db_row o.to_db_tuple = o) ∧
    (∀ o : OptionOrder, OptionOrder.from_db_row o.to_db_tuple = o) ∧
    (∀ l : OptionLeg, OptionLeg.from_db_row l.to_db_tuple = l) ∧
    (∀ e : Execution, Execution.from_db_row e.to_db_tuple = e) ∧
    (∀ p : Position, Position.from_db_row p.to_db_tuple = p) ∧
    (∀ l : TransactionLink, TransactionLink.from_db_row l.to_db_tuple = l) :=
  ⟨fun _ => rfl, fun _ => rfl, fun _ => rfl, fun _ => rfl, fun _ => rfl,
   fun _ => rfl, fun _ => rfl⟩

/-- C9: the validators reject the known-bad inputs with messages naming the
offense: a leg with ratio_quantity 0 (message mentions "ratio_quantity"), a
link with equal opening/closing ids (message mentions "different"), and a
transaction whose created_at is "not-a-timestamp" (message mentions
"invalid ISO"). -/
theorem c9_validators_reject_known_bad_inputs :
    (∃ m, validate_option_leg legRatioZero = Except.error m ∧ pyIn "ratio_quantity" m = true) ∧
    (∃ m, validate_transaction_link linkEqualIds = Except.error m ∧ pyIn "different" m = true) ∧
    (∃ m, validate_transaction txBadTimestamp = Except.error m ∧ pyIn "invalid ISO" m = true) :=
  ⟨⟨"OptionLeg.ratio_quantity: must be positive, got 0", by decide⟩,
   ⟨"TransactionLink: opening_transaction_id and closing_transaction_id must be different",
     by decide⟩,
   ⟨"Transaction.created_at: invalid ISO timestamp: not-a-timestamp", by decide⟩⟩

/-- C5 (against the code): on the repo's own missing-symbol raw record,
`extract_stock_order` does not raise a structural error; the record
classifies as "unknown" and the call returns the ordinary value `none`.
(`test_extract_stock_order_missing_symbol_raises` expects a ValueError, and
the function body contains no raise at all.) -/
theorem c5_extract_stock_order_returns_none_without_symbol :
    determine_transaction_type rawStockNoSymbol = "unknown" ∧
    extract_stock_order rawStockNoSymbol uuidT1 = none := by
  constructor
  · decide
  · decide

/-- C4 (against the code): `normalize_position` never yields a Position at
all: the `Position(...)` constructor call at robinhood.py lines 630-639
omits the required `account_id` field of the dataclass, so every call
raises a TypeError, whatever the raw record, the symbol-lookup capability
and the drawn uuid are. -/
theorem c4_normalize_position_always_raises_type_error :
    ∀ (get_symbol_by_url : String → Option String) (mkId now : String) (r : RawPos),
      normalize_position get_symbol_by_url mkId now r =
        Except.error
          "TypeError: Position.__init__() missing 1 required positional argument: account_id" :=
  fun _ _ _ _ => rfl

/-- C3 (against the code): the sync loop applies no type filter: given the
mixed raw records (one option, one stock) and no storage failures, the
non-stock transaction is stored and returned alongside the stock one. The
`sync_transactions` embedding, like its source (robinhood_sync.py lines
47-53), has no type-filter parameter at all, so no call can restrict the
result to stock-typed transactions. -/
theorem c3_sync_transactions_stores_all_types :
    (sync_transactions fakeAdapter noFailures [FakeRaw.rawOption, FakeRaw.rawStock]
        DB.empty).error = none ∧
    (sync_transactions fakeAdapter noFailures [FakeRaw.rawOption, FakeRaw.rawStock]
        DB.empty).stored.map Transaction.type = ["option", "stock"] ∧
    (sync_transactions fakeAdapter noFailures [FakeRaw.rawOption, FakeRaw.rawStock]
        DB.empty).db.transactions.map Transaction.type = ["option", "stock"] := by
  refine ⟨?_, ?_, ?_⟩ <;> decide

/-- C1 (against the code): when the option-leg insert fails for the single
option record, the record's Transaction row and its OptionOrder sibling
remain committed (each repository `create` committed in its own scope), so
the failure does not roll back the record's earlier writes. -/
theorem c1_transaction_row_survives_child_insert_failure :
    (sync_transactions fakeAdapter legFailRepo [FakeRaw.rawOption] DB.empty).error =
      some "storage error: option_legs insert failed" ∧
    (sync_transactions fakeAdapter legFailRepo [FakeRaw.rawOption] DB.empty).db.transactions =
      [optionTx] ∧
    (sync_transactions fakeAdapter legFailRepo [FakeRaw.rawOption] DB.empty).db.option_orders =
      [fakeOptionOrder uuidT1] ∧
    (sync_transactions fakeAdapter legFailRepo [FakeRaw.rawOption] DB.empty).db.option_legs =
      [] := by
  refine ⟨?_, ?_, ?_, ?_⟩ <;> decide

/-- C6: `normalize_transaction` determines the type field by the spec's
ordered rule, embodied verbatim in `specTransactionType`: "legs" field or
"option" in the instrument reference gives option; else a plain symbol
gives stock; else a type string containing "crypto" or "dividend" gives
that type; else "unknown". -/
theorem c6_transaction_type_follows_spec_rule :
    ∀ (dumps : RawTx → String) (mkId now : String) (r : RawTx),
      (normalize_transaction dumps mkId now r).type = specTransactionType r ∧
      determine_transaction_type r = specTransactionType r := by
  intro dumps mkId now r
  have h : determine_transaction_type r = specTransactionType r := by
    unfold determine_transaction_type specTransactionType
    cases hc : (r.legs.isSome || pyIn "option" (r.instrument.getD "")) with
    | true => simp
    | false =>
      simp only [Bool.or_eq_false_iff] at hc
      simp [hc.2]
  exact ⟨h, h⟩

/-- C7: with at least one bound given, `extract_transactions` returns
exactly the records whose resolved timestamp lies within the bounds
inclusively, where an end date carrying no time component (midnight
time-of-day) is first extended through 23:59:59.999999 of that day. -/
theorem c7_extract_transactions_filters_by_resolved_timestamp :
    ∀ {α : Type} (resolved : α → Nat) (stock_orders option_orders : List α)
      (start_date end_date : Option Nat),
      start_date.isSome ∨ end_date.isSome →
      extract_transactions resolved stock_orders option_orders start_date end_date =
        (stock_orders ++ option_orders).filter
          (fun tx => inClaimBounds (resolved tx) start_date end_date) := by
  intro α resolved so oo sd ed h
  unfold extract_transactions
  have hb : (sd.isSome || ed.isSome) = true := by
    rcases h with h | h <;> simp [h]
  rw [if_pos hb]
  unfold filter_by_date
  congr 1
  funext tx
  unfold inClaimBounds
  cases sd <;> cases ed <;>
    simp [← decide_not, Nat.not_lt, decide_eq_decide]

/-- Witness for C7 at a concrete start bound and record list. -/
theorem c7_witness :
    ((some 5 : Option Nat).isSome ∨ (none : Option Nat).isSome) ∧
    extract_transactions (fun n : Nat => n) [3, 10] [20] (some 5) none =
      ([3, 10] ++ [20]).filter (fun tx => inClaimBounds ((fun n : Nat => n) tx) (some 5) none) :=
  ⟨Or.inl rfl,
   c7_extract_transactions_filters_by_resolved_timestamp (fun n : Nat => n) [3, 10] [20]
     (some 5) none (Or.inl rfl)⟩

/-- C10: when a leg-id list is supplied, the execution at index i is paired
with the leg id at index i exactly when i is below the number of leg ids
and carries no leg id otherwise, and every raw execution entry is returned
(surplus executions beyond the legs are kept, with a null leg reference). -/
theorem c10_executions_paired_to_legs_positionally :
    ∀ (now : String) (mkIds : Nat → String) (r : RawTx) (tid : String) (ls : List String)
      (i : Nat) (h : i < (extract_executions now mkIds r tid (some ls)).length),
      (extract_executions now mkIds r tid (some ls)).length =
        (r.executions.getD []).length ∧
      ((extract_executions now mkIds r tid (some ls)).get ⟨i, h⟩).leg_id =
        (if i < ls.length then ls.get? i else none) := by
  intro now mkIds r tid ls i h
  constructor
  · simp [extract_executions]
  · unfold extract_executions
    rw [List.get_map, List.get_enum]
    by_cases hi : i < ls.length
    · have hne : ls.isEmpty = false := by
        cases ls with
        | nil => simp at hi
        | cons a t => rfl
      simp [hi, hne]
    · simp [hi]

/-- Witness for C10: two raw executions against one leg id; the first pairs
to the leg, the surplus second execution is kept with a null leg id. -/
theorem c10_witness :
    1 < execsPaired.length ∧
    execsPaired.length = (rawTwoExecs.executions.getD []).length ∧
    (execsPaired.get ⟨1, by decide⟩).leg_id = none :=
  ⟨by decide,
   (c10_executions_paired_to_legs_positionally "now" (fun _ => uuidE1) rawTwoExecs uuidT1
     [uuidL1] 1 (by decide)).1,
   ((c10_executions_paired_to_legs_positionally "now" (fun _ => uuidE1) rawTwoExecs uuidT1
     [uuidL1] 1 (by decide)).2).trans (by decide)⟩

/-! ### Helper lemmas for the idempotency claim: the sync loop only ever
appends to the transactions table, a committed key stays present, and a
record whose key is present is skipped unchanged. -/

/-- A successful Transaction create appends exactly that row. -/
theorem tx_create_ok_transactions (R : RepoFailures) (db : DB) (t : Transaction) (db1 : DB)
    (h : tx_create R db t = Except.ok db1) :
    db1.transactions = db.transactions ++ [t] := by
  unfold tx_create at h
  by_cases hf : R.txFail t
  · rw [if_pos hf] at h; cases h
  · rw [if_neg hf] at h; cases h; rfl

/-- A successful OptionOrder create leaves the transactions table unchanged. -/
theorem option_order_create_ok_transactions (R : RepoFailures) (db : DB) (o : OptionOrder)
    (db2 : DB) (h : option_order_create R db o = Except.ok db2) :
    db2.transactions = db.transactions := by
  unfold option_order_create at h
  by_cases hf : R.optionOrderFail o
  · rw [if_pos hf] at h; cases h
  · rw [if_neg hf] at h; cases h; rfl

/-- A successful OptionLeg create leaves the transactions table unchanged. -/
theorem option_leg_create_ok_transactions (R : RepoFailures) (db : DB) (l : OptionLeg)
    (db2 : DB) (h : option_leg_create R db l = Except.ok db2) :
    db2.transactions = db.transactions := by
  unfold option_leg_create at h
  by_cases hf : R.legFail l
  · rw [if_pos hf] at h; cases h
  · rw [if_neg hf] at h; cases h; rfl

/-- A successful Execution create leaves the transactions table unchanged. -/
theorem execution_create_ok_transactions (R : RepoFailures) (db : DB) (e : Execution)
    (db2 : DB) (h : execution_create R db e = Except.ok db2) :
    db2.transactions = db.transactions := by
  unfold execution_create at h
  by_cases hf : R.execFail e
  · rw [if_pos hf] at h; cases h
  · rw [if_neg hf] at h; cases h; rfl

/-- A successful StockOrder create leaves the transactions table unchanged. -/
theorem stock_order_create_ok_transactions (R : RepoFailures) (db : DB) (s : StockOrder)
    (db2 : DB) (h : stock_order_create R db s = Except.ok db2) :
    db2.transactions = db.transactions := by
  unfold stock_order_create at h
  by_cases hf : R.stockFail s
  · rw [if_pos hf] at h; cases h
  · rw [if_neg hf] at h; cases h; rfl

/-- Inserting legs never touches the transactions table. -/
theorem insertLegs_transactions (R : RepoFailures) :
    ∀ (legs : List OptionLeg) (db : DB),
      ((insertLegs R db legs).1).transactions = db.transactions := by
  intro legs
  induction legs with
  | nil => intro db; rfl
  | cons leg rest ih =>
    intro db
    unfold insertLegs
    cases hv : validate_option_leg leg with
    | error m => rfl
    | ok u =>
      cases hc : option_leg_create R db leg with
      | error m => rfl
      | ok db2 =>
        exact (ih db2).trans (option_leg_create_ok_transactions R db leg db2 hc)

/-- Inserting executions never touches the transactions table. -/
theorem insertExecutions_transactions (R : RepoFailures) :
    ∀ (execs : List Execution) (db : DB),
      ((insertExecutions R db execs).1).transactions = db.transactions := by
  intro execs
  induction execs with
  | nil => intro db; rfl
  | cons e rest ih =>
    intro db
    unfold insertExecutions
    cases hv : validate_execution e with
    | error m => rfl
    | ok u =>
      cases hc : execution_create R db e with
      | error m => rfl
      | ok db2 =>
        exact (ih db2).trans (execution_create_ok_transactions R db e db2 hc)

/-- `insertLegs` in equation form. -/
theorem insertLegs_pair_transactions (R : RepoFailures) (legs : List OptionLeg) (db db2 : DB)
    (err : Option String) (h : insertLegs R db legs = (db2, err)) :
    db2.transactions = db.transactions := by
  have h2 := insertLegs_transactions R legs db
  rw [h] at h2
  exact h2

/-- `insertExecutions` in equation form. -/
theorem insertExecutions_pair_transactions (R : RepoFailures) (execs : List Execution)
    (db db2 : DB) (err : Option String) (h : insertExecutions R db execs = (db2, err)) :
    db2.transactions = db.transactions := by
  have h2 := insertExecutions_transactions R execs db
  rw [h] at h2
  exact h2

/-- The option branch never touches the transactions table. -/
theorem processOption_transactions {Raw : Type} (A : Adapter Raw) (R : RepoFailures)
    (s1 : SyncState) (raw : Raw) (t : Transaction) (oo : OptionOrder) :
    (processOption A R s1 raw t oo).db.transactions = s1.db.transactions := by
  unfold processOption
  split
  · rfl
  · split
    · rfl
    · next db2 heq2 =>
      have h2 := option_order_create_ok_transactions R s1.db oo db2 heq2
      dsimp only
      split
      · next db3 m heq3 =>
        exact (insertLegs_pair_transactions R _ _ _ _ heq3).trans h2
      · next db3 heq3 =>
        have h3 := insertLegs_pair_transactions R _ _ _ _ heq3
        split
        · next db4 m heq4 =>
          exact ((insertExecutions_pair_transactions R _ _ _ _ heq4).trans h3).trans h2
        · next db4 heq4 =>
          exact ((insertExecutions_pair_transactions R _ _ _ _ heq4).trans h3).trans h2

/-- The child writes after a committed Transaction row never touch the
transactions table. -/
theorem processChildren_transactions {Raw : Type} (A : Adapter Raw) (R : RepoFailures)
    (s1 : SyncState) (raw : Raw) (t : Transaction) :
    (processChildren A R s1 raw t).db.transactions = s1.db.transactions := by
  unfold processChildren
  split
  · next oo heq => exact processOption_transactions A R s1 raw t oo
  · next heq =>
    split
    · next so heq2 =>
      split
      · rfl
      · split
        · rfl
        · next db2 heq4 => exact stock_order_create_ok_transactions R s1.db so db2 heq4
    · rfl

/-- A key present before a loop iteration is still present after it. -/
theorem processRecord_key_mono {Raw : Type} (A : Adapter Raw) (R : RepoFailures)
    (s : SyncState) (raw : Raw) (src sid : String)
    (h : exists_by_source_id s.db src sid = true) :
    exists_by_source_id (processRecord A R s raw).db src sid = true := by
  unfold processRecord
  cases he : s.error with
  | some m => exact h
  | none =>
    dsimp only
    unfold processRecord1
    dsimp only
    cases hv : validate_transaction (A.normalize_transaction raw) with
    | error m => exact h
    | ok u =>
      dsimp only
      cases hex : exists_by_source_id s.db (A.normalize_transaction raw).source
          (A.normalize_transaction raw).source_id with
      | true =>
        rw [if_pos rfl]
        exact h
      | false =>
        rw [if_neg Bool.false_ne_true]
        cases hc : tx_create R s.db (A.normalize_transaction raw) with
        | error m => exact h
        | ok db1 =>
          dsimp only
          unfold exists_by_source_id at h ⊢
          rw [processChildren_transactions]
          dsimp only
          rw [tx_create_ok_transactions R s.db (A.normalize_transaction raw) db1 hc]
          simp [List.any_append, h]

/-- If a loop iteration finishes clean, the record passed validation and its
natural key is present afterwards. -/
theorem processRecord1_clean {Raw : Type} (A : Adapter Raw) (R : RepoFailures)
    (s : SyncState) (raw : Raw)
    (h : (processRecord1 A R s raw).error = none) :
    validate_transaction (A.normalize_transaction raw) = Except.ok () ∧
    exists_by_source_id (processRecord1 A R s raw).db (A.normalize_transaction raw).source
      (A.normalize_transaction raw).source_id = true := by
  unfold processRecord1 at h ⊢
  dsimp only at h ⊢
  cases hv : validate_transaction (A.normalize_transaction raw) with
  | error m =>
    rw [hv] at h
    exact Option.noConfusion h
  | ok u =>
    cases u
    rw [hv] at h
    dsimp only at h
    refine ⟨rfl, ?_⟩
    cases hex : exists_by_source_id s.db (A.normalize_transaction raw).source
        (A.normalize_transaction raw).source_id with
    | true =>
      rw [if_pos rfl]
      exact hex
    | false =>
      rw [hex] at h
      rw [if_neg Bool.false_ne_true] at h ⊢
      cases hc : tx_create R s.db (A.normalize_transaction raw) with
      | error m =>
        rw [hc] at h
        exact Option.noConfusion h
      | ok db1 =>
        dsimp only
        unfold exists_by_source_id
        rw [processChildren_transactions]
        dsimp only
        rw [tx_create_ok_transactions R s.db (A.normalize_transaction raw) db1 hc]
        simp [List.any_append]

/-- A record that validates and whose key is already present is skipped:
the state is returned unchanged (no write, no result entry, no error). -/
theorem processRecord_skip {Raw : Type} (A : Adapter Raw) (R : RepoFailures)
    (s : SyncState) (raw : Raw) (hs : s.error = none)
    (hv : validate_transaction (A.normalize_transaction raw) = Except.ok ())
    (hk : exists_by_source_id s.db (A.normalize_transaction raw).source
      (A.normalize_transaction raw).source_id = true) :
    processRecord A R s raw = s := by
  unfold processRecord
  rw [hs]
  dsimp only
  unfold processRecord1
  dsimp only
  rw [hv]
  dsimp only
  rw [hk, if_pos rfl]

/-- Once the loop has raised, the remaining iterations change nothing. -/
theorem foldl_error_stable {Raw : Type} (A : Adapter Raw) (R : RepoFailures) :
    ∀ (raws : List Raw) (s : SyncState) (m : String), s.error = some m →
      List.foldl (processRecord A R) s raws = s := by
  intro raws
  induction raws with
  | nil => intro s m h; rfl
  | cons raw rest ih =>
    intro s m h
    rw [List.foldl_cons]
    have hstep : processRecord A R s raw = s := by
      unfold processRecord
      rw [h]
    rw [hstep]
    exact ih s m h

/-- A key present at the start of the loop is present at its end. -/
theorem foldl_key_mono {Raw : Type} (A : Adapter Raw) (R : RepoFailures) :
    ∀ (raws : List Raw) (s : SyncState) (src sid : String),
      exists_by_source_id s.db src sid = true →
      exists_by_source_id (List.foldl (processRecord A R) s raws).db src sid = true := by
  intro raws
  induction raws with
  | nil => intro s src sid h; exact h
  | cons raw rest ih =>
    intro s src sid h
    rw [List.foldl_cons]
    exact ih (processRecord A R s raw) src sid (processRecord_key_mono A R s raw src sid h)

/-- After a clean run, every processed record validated and its natural key
is present in the final database. -/
theorem foldl_clean_keys {Raw : Type} (A : Adapter Raw) (R : RepoFailures) :
    ∀ (raws : List Raw) (s : SyncState),
      (List.foldl (processRecord A R) s raws).error = none →
      ∀ raw ∈ raws,
        validate_transaction (A.normalize_transaction raw) = Except.ok () ∧
        exists_by_source_id (List.foldl (processRecord A R) s raws).db
          (A.normalize_transaction raw).source (A.normalize_transaction raw).source_id
          = true := by
  intro raws
  induction raws with
  | nil => intro s hfin raw hmem; cases hmem
  | cons raw0 rest ih =>
    intro s hfin raw hmem
    rw [List.foldl_cons] at hfin ⊢
    have hs1 : (processRecord A R s raw0).error = none := by
      cases he : (processRecord A R s raw0).error with
      | none => rfl
      | some m =>
        rw [foldl_error_stable A R rest (processRecord A R s raw0) m he] at hfin
        rw [he] at hfin
        cases hfin
    have hs : s.error = none := by
      cases he : s.error with
      | none => rfl
      | some m =>
        have hstep : processRecord A R s raw0 = s := by
          unfold processRecord
          rw [he]
        rw [hstep, he] at hs1
        cases hs1
    have hpr1 : processRecord A R s raw0 = processRecord1 A R s raw0 := by
      unfold processRecord
      rw [hs]
    rcases List.mem_cons.mp hmem with hEq | hmem'
    · subst hEq
      have hclean := processRecord1_clean A R s raw (by rw [← hpr1]; exact hs1)
      refine ⟨hclean.1, ?_⟩
      have hkey : exists_by_source_id (processRecord A R s raw).db
          (A.normalize_transaction raw).source (A.normalize_transaction raw).source_id
          = true := by
        rw [hpr1]; exact hclean.2
      exact foldl_key_mono A R rest (processRecord A R s raw)
        (A.normalize_transaction raw).source (A.normalize_transaction raw).source_id hkey
    · exact ih (processRecord A R s raw0) hfin raw hmem'

/-- A run whose every record validates and is already present leaves the
state untouched. -/
theorem foldl_skip_all {Raw : Type} (A : Adapter Raw) (R : RepoFailures) :
    ∀ (raws : List Raw) (s : SyncState), s.error = none →
      (∀ raw ∈ raws,
        validate_transaction (A.normalize_transaction raw) = Except.ok () ∧
        exists_by_source_id s.db (A.normalize_transaction raw).source
          (A.normalize_transaction raw).source_id = true) →
      List.foldl (processRecord A R) s raws = s := by
  intro raws
  induction raws with
  | nil => intro s hs hall; rfl
  | cons raw rest ih =>
    intro s hs hall
    rw [List.foldl_cons]
    have hstep : processRecord A R s raw = s :=
      processRecord_skip A R s raw hs (hall raw (List.mem_cons_self raw rest)).1
        (hall raw (List.mem_cons_self raw rest)).2
    rw [hstep]
    exact ih s hs (fun r hr => hall r (List.mem_cons_of_mem raw hr))

/-- C2: idempotency of the sync loop. First, a raw record that validates and
whose normalized `(source, source_id)` is already in storage is skipped
without error, with no write and no entry in the result list (the state is
unchanged). Hence, second, re-running `sync_transactions` on the same raw
records over the database a clean first run produced stores nothing: the
database is unchanged and the returned list is empty. -/
theorem c2_sync_transactions_idempotent {Raw : Type} :
    (∀ (A : Adapter Raw) (R : RepoFailures) (s : SyncState) (raw : Raw),
      s.error = none →
      validate_transaction (A.normalize_transaction raw) = Except.ok () →
      exists_by_source_id s.db (A.normalize_transaction raw).source
        (A.normalize_transaction raw).source_id = true →
      processRecord A R s raw = s) ∧
    (∀ (A : Adapter Raw) (R : RepoFailures) (raws : List Raw) (db0 : DB),
      (sync_transactions A R raws db0).error = none →
      sync_transactions A R raws (sync_transactions A R raws db0).db =
        { db := (sync_transactions A R raws db0).db, stored := [], error := none }) := by
  constructor
  · intro A R s raw hs hv hk
    exact processRecord_skip A R s raw hs hv hk
  · intro A R raws db0 hclean
    have hkeys := foldl_clean_keys A R raws
      { db := db0, stored := [], error := none } hclean
    exact foldl_skip_all A R raws
      { db := (sync_transactions A R raws db0).db, stored := [], error := none } rfl
      (fun raw hr => hkeys raw hr)

/-- Witness for C2: the fake adapter's two records sync cleanly into an
empty database; re-running on the resulting database is a no-op, and
re-processing the option record against that database skips it. -/
theorem c2_witness :
    (sync_transactions fakeAdapter noFailures [FakeRaw.rawOption, FakeRaw.rawStock]
        DB.empty).error = none ∧
    sync_transactions fakeAdapter noFailures [FakeRaw.rawOption, FakeRaw.rawStock]
        (sync_transactions fakeAdapter noFailures [FakeRaw.rawOption, FakeRaw.rawStock]
          DB.empty).db =
      { db := (sync_transactions fakeAdapter noFailures [FakeRaw.rawOption, FakeRaw.rawStock]
          DB.empty).db, stored := [], error := none } ∧
    processRecord fakeAdapter noFailures
        { db := (sync_transactions fakeAdapter noFailures [FakeRaw.rawOption, FakeRaw.rawStock]
            DB.empty).db, stored := [], error := none } FakeRaw.rawOption =
      { db := (sync_transactions fakeAdapter noFailures [FakeRaw.rawOption, FakeRaw.rawStock]
          DB.empty).db, stored := [], error := none } :=
  ⟨by decide,
   c2_sync_transactions_idempotent.2 fakeAdapter noFailures [FakeRaw.rawOption, FakeRaw.rawStock]
     DB.empty (by decide),
   c2_sync_transactions_idempotent.1 fakeAdapter noFailures
     { db := (sync_transactions fakeAdapter noFailures [FakeRaw.rawOption, FakeRaw.rawStock]
         DB.empty).db, stored := [], error := none } FakeRaw.rawOption rfl (by decide)
     (by decide)⟩

end Tradedata
